import Mathlib

/-!
Verification development for the winapi-sd-test repository: a shallow
embedding of its device-interface enumeration and typed property decoding
code, together with theorems settling the specification claims.

Conventions of the embedding:
* machine bytes are `Nat` values below 256; wider machine integers are `Nat`
  (unsigned) or `Int` (signed, via two's complement reinterpretation);
* a Rust function that can panic (failed `assert!`, out-of-bounds slice
  index, `unwrap` of `None`, `chunks_exact(0)`) is modelled as an `Option`
  (or a dedicated `fatal` outcome constructor), with `none`/`fatal`
  standing for the aborted execution;
* `f32`/`f64` values are carried as their raw IEEE bit patterns (`Nat`),
  since `from_ne_bytes` is a pure bit reinterpretation;
* calls into the OS (`SetupDi*`, `GetLastError`) are abstracted by explicit
  oracle parameters giving the values the OS would produce.
-/

namespace SdTest

/-! Constants from the winapi crate (devpropdef.h / winerror.h), used by
src/devdata.rs, src/devset.rs and src/devdata/properties.rs. -/

/-- DEVPROP_TYPEMOD_ARRAY: the array modifier bit of a property type tag. -/
def DEVPROP_TYPEMOD_ARRAY : Nat := 0x1000

/-- DEVPROP_MASK_TYPEMOD: mask selecting the modifier bits of a type tag. -/
def DEVPROP_MASK_TYPEMOD : Nat := 0xF000

/-- DEVPROP_MASK_TYPE: mask selecting the base-type bits of a type tag. -/
def DEVPROP_MASK_TYPE : Nat := 0xFFF

def DEVPROP_TYPE_EMPTY : Nat := 0x00
def DEVPROP_TYPE_NULL : Nat := 0x01
def DEVPROP_TYPE_SBYTE : Nat := 0x02
def DEVPROP_TYPE_BYTE : Nat := 0x03
def DEVPROP_TYPE_INT16 : Nat := 0x04
def DEVPROP_TYPE_UINT16 : Nat := 0x05
def DEVPROP_TYPE_INT32 : Nat := 0x06
def DEVPROP_TYPE_UINT32 : Nat := 0x07
def DEVPROP_TYPE_INT64 : Nat := 0x08
def DEVPROP_TYPE_UINT64 : Nat := 0x09
def DEVPROP_TYPE_FLOAT : Nat := 0x0A
def DEVPROP_TYPE_DOUBLE : Nat := 0x0B
def DEVPROP_TYPE_GUID : Nat := 0x0D
def DEVPROP_TYPE_BOOLEAN : Nat := 0x11
def DEVPROP_TYPE_STRING : Nat := 0x12

/-- DEVPROP_TYPE_BINARY is defined in devpropdef.h as
DEVPROP_TYPEMOD_ARRAY | DEVPROP_TYPE_BYTE (the comment at
src/devdata/properties.rs lines 28-30 records this), i.e. 0x1003. -/
def DEVPROP_TYPE_BINARY : Nat := DEVPROP_TYPEMOD_ARRAY ||| DEVPROP_TYPE_BYTE

/-- DEVPROP_TRUE is declared as ((DEVPROP_BOOLEAN)-1), i.e. the signed byte
-1, whose unsigned byte representation is 0xFF = 255.  A wire boolean byte
`b` satisfies `b as i8 == DEVPROP_TRUE` exactly when `b = 255`. -/
def DEVPROP_TRUE_BYTE : Nat := 0xFF

/-- The distinguished platform code ERROR_NO_MORE_ITEMS. -/
def ERROR_NO_MORE_ITEMS : Nat := 259

/-- The distinguished platform code ERROR_INSUFFICIENT_BUFFER. -/
def ERROR_INSUFFICIENT_BUFFER : Nat := 122

/-! Byte-buffer reinterpretation helpers.  These embed the closures
`i16conv`, `u16conv`, ..., `guidconv` of
`DevInterfaceData::fetch_property_value` (src/devdata.rs lines 363-376 and
src/devset.rs lines 347-360).  Each closure indexes or slices the buffer
and so panics when the buffer is too short; the embedding returns `none`
in that case. -/

/-- Little-endian value of a byte list (native endianness of the targeted
platform is little-endian). -/
def leBytes : List Nat → Nat
  | [] => 0
  | b :: rest => b + 256 * leBytes rest

/-- Two's-complement reinterpretation of an unsigned `w`-bit value. -/
def toSigned (w : Nat) (n : Nat) : Int :=
  if n < 2 ^ (w - 1) then (n : Int) else (n : Int) - 2 ^ w

/-- u16conv: `u16::from_ne_bytes([v[0], v[1]])`; indexing panics when the
buffer has fewer than 2 bytes. -/
def u16conv (v : List Nat) : Option Nat :=
  if 2 ≤ v.length then some (leBytes (v.take 2)) else none

/-- i16conv: `i16::from_ne_bytes([v[0], v[1]])`. -/
def i16conv (v : List Nat) : Option Int :=
  (u16conv v).map (toSigned 16)

/-- u32conv: `u32::from_ne_bytes(v[0..4].try_into().unwrap())`; the slice
`v[0..4]` panics when the buffer has fewer than 4 bytes. -/
def u32conv (v : List Nat) : Option Nat :=
  if 4 ≤ v.length then some (leBytes (v.take 4)) else none

/-- i32conv: `i32::from_ne_bytes(v[0..4].try_into().unwrap())`. -/
def i32conv (v : List Nat) : Option Int :=
  (u32conv v).map (toSigned 32)

/-- u64conv: `u64::from_ne_bytes(v[0..8].try_into().unwrap())`. -/
def u64conv (v : List Nat) : Option Nat :=
  if 8 ≤ v.length then some (leBytes (v.take 8)) else none

/-- i64conv: `i64::from_ne_bytes(v[0..8].try_into().unwrap())`. -/
def i64conv (v : List Nat) : Option Int :=
  (u64conv v).map (toSigned 64)

/-- f32conv: `f32::from_ne_bytes(v[0..4].try_into().unwrap())`, carried as
the raw IEEE bit pattern. -/
def f32conv (v : List Nat) : Option Nat :=
  if 4 ≤ v.length then some (leBytes (v.take 4)) else none

/-- f64conv: `f64::from_ne_bytes(v[0..8].try_into().unwrap())`, carried as
the raw IEEE bit pattern. -/
def f64conv (v : List Nat) : Option Nat :=
  if 8 ≤ v.length then some (leBytes (v.take 8)) else none

/-- The GUID struct of winapi (shared/guiddef.rs): Data1 is 32-bit, Data2
and Data3 are 16-bit, Data4 is an 8-byte array. -/
structure GUID where
  Data1 : Nat
  Data2 : Nat
  Data3 : Nat
  Data4 : List Nat
  deriving DecidableEq, Repr

/-- guidconv: reads `v[0..4]`, `v[4..6]`, `v[6..8]`, `v[8..16]` in order;
any of those slices panics when the buffer has fewer than 16 bytes. -/
def guidconv (v : List Nat) : Option GUID :=
  if 16 ≤ v.length then
    some { Data1 := leBytes (v.take 4)
           Data2 := leBytes ((v.drop 4).take 2)
           Data3 := leBytes ((v.drop 6).take 2)
           Data4 := (v.drop 8).take 8 }
  else none

/-! UTF-16 handling for the string arm. -/

/-- Reinterpretation of a byte buffer as little-endian u16 code units, as
done by `raw.align_to::<u16>().1` on a 2-aligned allocation: consecutive
byte pairs become units, a trailing odd byte falls into the unaligned
suffix and is dropped. -/
def toU16LE : List Nat → List Nat
  | b0 :: b1 :: rest => (b0 + 256 * b1) :: toU16LE rest
  | _ => []

/-- UTF-16 well-formedness as checked by `String::from_utf16`: a high
surrogate must be followed by a low surrogate, and a low surrogate must not
appear on its own. -/
def utf16Valid : List Nat → Bool
  | [] => true
  | u :: rest =>
    if u < 0xD800 || 0xDFFF < u then utf16Valid rest
    else if u < 0xDC00 then
      match rest with
      | v :: rest2 => (0xDC00 ≤ v && v ≤ 0xDFFF) && utf16Valid rest2
      | [] => false
    else false

/-- The scalar string arm of `fetch_property_value`
(src/devdata.rs lines 391-395):
`String::from_utf16(raw.align_to().1.split_last().unwrap().1).unwrap()`.
`split_last` panics on an empty unit list (`none`); it drops the final
code unit (the wire null terminator); `from_utf16` then panics on invalid
UTF-16.  The produced logical string is carried as its code-unit list. -/
def stringArm (raw : List Nat) : Option (List Nat) :=
  let units := toU16LE raw
  if units.isEmpty then none
  else if utf16Valid units.dropLast then some units.dropLast
  else none

/-! Array chunking. -/

/-- Fuel-indexed worker for `chunksExact`. -/
def chunksGo (n : Nat) : Nat → List Nat → List (List Nat)
  | 0, _ => []
  | fuel + 1, l => if n ≤ l.length then l.take n :: chunksGo n fuel (l.drop n) else []

/-- `slice::chunks_exact(n)` for `0 < n`: the successive complete `n`-byte
chunks of the buffer, any remainder dropped. -/
def chunksExact (n : Nat) (l : List Nat) : List (List Nat) :=
  chunksGo n l.length l

/-- arrconv (src/devdata.rs lines 378-382 and src/devset.rs lines 362-366):

  fn arrconv<T>(arr: &[u8], f: impl Fn(&[u8]) -> T) -> Vec<T> \x7b
      arr.chunks_exact(std::mem::size_of::<T>() / 8).map(f).collect()
  \x7d

The chunk width is `size_of::<T>() / 8` — `size_of` counts BYTES, so this
divides the element byte width by 8.  `chunks_exact` panics when its
argument is 0 (`none` here); otherwise each chunk is passed through the
converter, which itself panics when the chunk is shorter than the value it
reads. -/
def arrconv (sizeOfT : Nat) (f : List Nat → Option α) (arr : List Nat) :
    Option (List α) :=
  if sizeOfT / 8 = 0 then none
  else (chunksExact (sizeOfT / 8) arr).mapM f

/-! The decoded property value model (src/devprop.rs `DevProperty`, also
mirrored by the enum at src/devset.rs lines 412-443). -/

inductive DevProperty where
  | Empty
  | Null
  | Bool (b : Bool)
  | String (units : List Nat)
  | I8 (v : Int)
  | U8 (v : Nat)
  | I16 (v : Int)
  | U16 (v : Nat)
  | I32 (v : Int)
  | U32 (v : Nat)
  | I64 (v : Int)
  | U64 (v : Nat)
  | F32 (bits : Nat)
  | F64 (bits : Nat)
  | Binary (bytes : List Nat)
  | Guid (g : GUID)
  | BoolArray (v : List Bool)
  | I8Array (v : List Int)
  | U8Array (v : List Nat)
  | I16Array (v : List Int)
  | U16Array (v : List Nat)
  | I32Array (v : List Int)
  | U32Array (v : List Nat)
  | I64Array (v : List Int)
  | U64Array (v : List Nat)
  | F32Array (v : List Nat)
  | F64Array (v : List Nat)
  | GuidArray (v : List GUID)
  | Unsupported (ty : Nat)
  deriving DecidableEq, Repr

/-- `prop_ty & DEVPROP_MASK_TYPEMOD`, the modifier half of the match
scrutinee in `fetch_property_value`. -/
def tymod (ty : Nat) : Nat := ty &&& DEVPROP_MASK_TYPEMOD

/-- `prop_ty & DEVPROP_MASK_TYPE`, the base-type half of the match
scrutinee in `fetch_property_value`. -/
def tybase (ty : Nat) : Nat := ty &&& DEVPROP_MASK_TYPE

/-- The tag-dispatch decode of `DevInterfaceData::fetch_property_value`
(src/devdata.rs lines 386-423; src/devset.rs lines 370-408 is the same
match): given the reported property type `ty` and the fetched raw buffer,
produce the decoded `DevProperty`.  The arms appear in source order;
`none` models a panic inside an arm. -/
def decodeProp (ty : Nat) (raw : List Nat) : Option DevProperty :=
  if tymod ty = 0 ∧ tybase ty = DEVPROP_TYPE_EMPTY then some .Empty
  else if tymod ty = 0 ∧ tybase ty = DEVPROP_TYPE_NULL then some .Null
  else if tymod ty = 0 ∧ tybase ty = DEVPROP_TYPE_BOOLEAN then
    raw.head?.map (fun b => .Bool (b == DEVPROP_TRUE_BYTE))
  else if tymod ty = 0 ∧ tybase ty = DEVPROP_TYPE_STRING then
    (stringArm raw).map .String
  else if tymod ty = 0 ∧ tybase ty = DEVPROP_TYPE_SBYTE then
    raw.head?.map (fun b => .I8 (toSigned 8 b))
  else if tymod ty = 0 ∧ tybase ty = DEVPROP_TYPE_BYTE then
    raw.head?.map .U8
  else if tymod ty = 0 ∧ tybase ty = DEVPROP_TYPE_INT16 then
    (i16conv raw).map .I16
  else if tymod ty = 0 ∧ tybase ty = DEVPROP_TYPE_UINT16 then
    (u16conv raw).map .U16
  else if tymod ty = 0 ∧ tybase ty = DEVPROP_TYPE_INT32 then
    (i32conv raw).map .I32
  else if tymod ty = 0 ∧ tybase ty = DEVPROP_TYPE_UINT32 then
    (u32conv raw).map .U32
  else if tymod ty = 0 ∧ tybase ty = DEVPROP_TYPE_INT64 then
    (i64conv raw).map .I64
  else if tymod ty = 0 ∧ tybase ty = DEVPROP_TYPE_UINT64 then
    (u64conv raw).map .U64
  else if tymod ty = 0 ∧ tybase ty = DEVPROP_TYPE_FLOAT then
    (f32conv raw).map .F32
  else if tymod ty = 0 ∧ tybase ty = DEVPROP_TYPE_DOUBLE then
    (f64conv raw).map .F64
  else if tymod ty = 0 ∧ tybase ty = DEVPROP_TYPE_BINARY then
    some (.Binary raw)
  else if tymod ty = 0 ∧ tybase ty = DEVPROP_TYPE_GUID then
    (guidconv raw).map .Guid
  else if tymod ty = DEVPROP_TYPEMOD_ARRAY ∧ tybase ty = DEVPROP_TYPE_BOOLEAN then
    some (.BoolArray (raw.map (fun b => b == DEVPROP_TRUE_BYTE)))
  else if tymod ty = DEVPROP_TYPEMOD_ARRAY ∧ tybase ty = DEVPROP_TYPE_SBYTE then
    some (.I8Array (raw.map (toSigned 8)))
  else if tymod ty = DEVPROP_TYPEMOD_ARRAY ∧ tybase ty = DEVPROP_TYPE_BYTE then
    some (.U8Array raw)
  else if tymod ty = DEVPROP_TYPEMOD_ARRAY ∧ tybase ty = DEVPROP_TYPE_INT16 then
    (arrconv 2 i16conv raw).map .I16Array
  else if tymod ty = DEVPROP_TYPEMOD_ARRAY ∧ tybase ty = DEVPROP_TYPE_UINT16 then
    (arrconv 2 u16conv raw).map .U16Array
  else if tymod ty = DEVPROP_TYPEMOD_ARRAY ∧ tybase ty = DEVPROP_TYPE_INT32 then
    (arrconv 4 i32conv raw).map .I32Array
  else if tymod ty = DEVPROP_TYPEMOD_ARRAY ∧ tybase ty = DEVPROP_TYPE_UINT32 then
    (arrconv 4 u32conv raw).map .U32Array
  else if tymod ty = DEVPROP_TYPEMOD_ARRAY ∧ tybase ty = DEVPROP_TYPE_INT64 then
    (arrconv 8 i64conv raw).map .I64Array
  else if tymod ty = DEVPROP_TYPEMOD_ARRAY ∧ tybase ty = DEVPROP_TYPE_UINT64 then
    (arrconv 8 u64conv raw).map .U64Array
  else if tymod ty = DEVPROP_TYPEMOD_ARRAY ∧ tybase ty = DEVPROP_TYPE_FLOAT then
    (arrconv 4 f32conv raw).map .F32Array
  else if tymod ty = DEVPROP_TYPEMOD_ARRAY ∧ tybase ty = DEVPROP_TYPE_DOUBLE then
    (arrconv 8 f64conv raw).map .F64Array
  else if tymod ty = DEVPROP_TYPEMOD_ARRAY ∧ tybase ty = DEVPROP_TYPE_GUID then
    (arrconv 16 guidconv raw).map .GuidArray
  else some (.Unsupported ty)

/-- The set of `(typemod, type)` pairs having a dedicated arm in the
decode table of `fetch_property_value`; anything else falls through to the
`Unsupported` arm. -/
def knownTag (ty : Nat) : Prop :=
  (tymod ty = 0 ∧ tybase ty = DEVPROP_TYPE_EMPTY)
  ∨ (tymod ty = 0 ∧ tybase ty = DEVPROP_TYPE_NULL)
  ∨ (tymod ty = 0 ∧ tybase ty = DEVPROP_TYPE_BOOLEAN)
  ∨ (tymod ty = 0 ∧ tybase ty = DEVPROP_TYPE_STRING)
  ∨ (tymod ty = 0 ∧ tybase ty = DEVPROP_TYPE_SBYTE)
  ∨ (tymod ty = 0 ∧ tybase ty = DEVPROP_TYPE_BYTE)
  ∨ (tymod ty = 0 ∧ tybase ty = DEVPROP_TYPE_INT16)
  ∨ (tymod ty = 0 ∧ tybase ty = DEVPROP_TYPE_UINT16)
  ∨ (tymod ty = 0 ∧ tybase ty = DEVPROP_TYPE_INT32)
  ∨ (tymod ty = 0 ∧ tybase ty = DEVPROP_TYPE_UINT32)
  ∨ (tymod ty = 0 ∧ tybase ty = DEVPROP_TYPE_INT64)
  ∨ (tymod ty = 0 ∧ tybase ty = DEVPROP_TYPE_UINT64)
  ∨ (tymod ty = 0 ∧ tybase ty = DEVPROP_TYPE_FLOAT)
  ∨ (tymod ty = 0 ∧ tybase ty = DEVPROP_TYPE_DOUBLE)
  ∨ (tymod ty = 0 ∧ tybase ty = DEVPROP_TYPE_BINARY)
  ∨ (tymod ty = 0 ∧ tybase ty = DEVPROP_TYPE_GUID)
  ∨ (tymod ty = DEVPROP_TYPEMOD_ARRAY ∧ tybase ty = DEVPROP_TYPE_BOOLEAN)
  ∨ (tymod ty = DEVPROP_TYPEMOD_ARRAY ∧ tybase ty = DEVPROP_TYPE_SBYTE)
  ∨ (tymod ty = DEVPROP_TYPEMOD_ARRAY ∧ tybase ty = DEVPROP_TYPE_BYTE)
  ∨ (tymod ty = DEVPROP_TYPEMOD_ARRAY ∧ tybase ty = DEVPROP_TYPE_INT16)
  ∨ (tymod ty = DEVPROP_TYPEMOD_ARRAY ∧ tybase ty = DEVPROP_TYPE_UINT16)
  ∨ (tymod ty = DEVPROP_TYPEMOD_ARRAY ∧ tybase ty = DEVPROP_TYPE_INT32)
  ∨ (tymod ty = DEVPROP_TYPEMOD_ARRAY ∧ tybase ty = DEVPROP_TYPE_UINT32)
  ∨ (tymod ty = DEVPROP_TYPEMOD_ARRAY ∧ tybase ty = DEVPROP_TYPE_INT64)
  ∨ (tymod ty = DEVPROP_TYPEMOD_ARRAY ∧ tybase ty = DEVPROP_TYPE_UINT64)
  ∨ (tymod ty = DEVPROP_TYPEMOD_ARRAY ∧ tybase ty = DEVPROP_TYPE_FLOAT)
  ∨ (tymod ty = DEVPROP_TYPEMOD_ARRAY ∧ tybase ty = DEVPROP_TYPE_DOUBLE)
  ∨ (tymod ty = DEVPROP_TYPEMOD_ARRAY ∧ tybase ty = DEVPROP_TYPE_GUID)

instance (ty : Nat) : Decidable (knownTag ty) := by
  unfold knownTag; infer_instance

/-- Discriminator for the `Binary` variant of a decode result. -/
def isBinaryVal : Option DevProperty → Bool
  | some (.Binary _) => true
  | _ => false


/-! Enumeration model (claim C3).

`DevInterfaceSet::enumerate` (src/devset.rs lines 50-64) polls
`SetupDiEnumDeviceInterfaces` at indices 0, 1, 2, ... through `map_while`:
a successful call yields an `Ok` record and moves to the next index; a
failed call reads `GetLastError()`; the code `ERROR_NO_MORE_ITEMS` maps to
`Ok(None)` which `map_while` turns into clean sequence end; any other code
maps to `Err(code)`, which `transpose` turns into `Some(Err(code))` — an
error element — after which `map_while` CONTINUES with the next index. -/

/-- What one `SetupDiEnumDeviceInterfaces` call at a given index produces:
either a filled interface-data record (abstracted as a `Nat` token) or a
failure with the `GetLastError()` platform code. -/
inductive EnumReply where
  | ok (data : Nat)
  | fail (code : Nat)
  deriving DecidableEq, Repr

/-- An element of the enumeration sequence as observed by the consumer. -/
inductive EnumItem where
  | ok (data : Nat)
  | err (code : Nat)
  deriving DecidableEq, Repr

/-- The lazy sequence of `enumerate`, observed for `fuel` iterator polls
starting at index `i`; each poll performs exactly one OS call `os i`. -/
def enumItems (os : Nat → EnumReply) : Nat → Nat → List EnumItem
  | 0, _ => []
  | fuel + 1, i =>
    match os i with
    | .ok d => .ok d :: enumItems os fuel (i + 1)
    | .fail c =>
      if c = ERROR_NO_MORE_ITEMS then []
      else .err c :: enumItems os fuel (i + 1)

/-- A concrete OS oracle: index 0 succeeds, index 1 fails with platform
code 5, index 2 succeeds again, and everything later reports
ERROR_NO_MORE_ITEMS. -/
def osSample : Nat → EnumReply
  | 0 => .ok 10
  | 1 => .fail 5
  | 2 => .ok 11
  | _ => .fail 259

/-- The record tokens the sample oracle hands out at indices below its
failure point. -/
def osSampleData : Nat → Nat
  | _ => 10


/-! Buffer-Sizing Protocol models (claims C4 and C5). -/

/-- Outcome of the zero-size probe phase shared by the three variable-length
queries (src/devdata.rs lines 130-148 `fetch_path`, 233-251
`fetch_property_keys`, 314-332 `fetch_property_value`;
src/devdata/properties.rs lines 196-217 `fetch_property_info`;
src/devset.rs lines 153-171, 234-251, 295-314). -/
inductive ProbeStep where
  | fatal
  | err (code : Nat)
  | proceed (size : Nat)
  deriving DecidableEq, Repr

/-- The probe phase itself.  `result` is whether the OS call returned
nonzero (success); `lastError` is what `GetLastError()` would return;
`requiredSize` is the size the call wrote through its out pointer.  The
code first asserts the call FAILED (`assert_eq!(result, FALSE)`, fatal on
success), then matches the error code: ERROR_INSUFFICIENT_BUFFER continues
to the allocation and fetch phase, any other code returns early as a
recoverable `Err(code)`. -/
def probePhase (result : Bool) (lastError requiredSize : Nat) : ProbeStep :=
  if result then .fatal
  else if lastError = ERROR_INSUFFICIENT_BUFFER then .proceed requiredSize
  else .err lastError

/-- Outcome of a whole path-retrieval run. -/
inductive PathOutcome where
  | fatal
  | err (code : Nat)
  | ok (bytes : List Nat)
  deriving DecidableEq, Repr

/-- Byte offset of the DevicePath field inside
SP_DEVICE_INTERFACE_DETAIL_DATA_W (a 4-byte cbSize DWORD followed by the
2-byte-aligned WCHAR array), used by the `vec.drain(..OFFSET)` step of
src/devdata.rs `fetch_path`. -/
def DETAIL_PATH_OFFSET : Nat := 4

/-- `size_of::<SP_DEVICE_INTERFACE_DETAIL_DATA_W>()`: 4-byte cbSize plus a
one-element WCHAR array, padded to the 4-byte struct alignment. -/
def DETAIL_STRUCT_SIZE : Nat := 8

/-- `size_of_val(details) - size_of_val(&details.DevicePath)` = 8 - 2, the
header length stripped by the `copy_within`/`truncate` step of
src/devset.rs `fetch_path`. -/
def DETAIL_FIXED_PART : Nat := 6

/-- `DevInterfaceData::fetch_path` of src/devdata.rs (lines 114-216).
After the probe (modelled inline, same shape as `probePhase`):
`NonZeroUsize::new(size).unwrap()` panics when the probed size is 0; the
raw buffer allocation may abort on allocator failure; the second call with
the `size`-byte buffer either fails (recoverable `Err`) or succeeds, in
which case `assert_eq!(size, new_size)` aborts on any mismatch between the
requested size and the size reported by the second call; finally the
fixed-size header is drained off and the rest returned.  `bytes` are the
buffer contents after the second call (the buffer has `size` bytes). -/
def fetchPathDevdata (probeResult : Bool) (probeError size : Nat)
    (allocFails fetchResult : Bool) (fetchError newSize : Nat)
    (bytes : List Nat) : PathOutcome :=
  if probeResult then .fatal
  else if probeError = ERROR_INSUFFICIENT_BUFFER then
    if size = 0 then .fatal
    else if allocFails then .fatal
    else if fetchResult then
      if newSize = size then .ok ((bytes.take size).drop DETAIL_PATH_OFFSET)
      else .fatal
    else .err fetchError
  else .err probeError

/-- `DevInterfaceData::fetch_path` of src/devset.rs (lines 142-221).
After the probe: `assert!(raw_usize >= size_of::<..DETAIL_DATA_W>())`
aborts when the probed size is below the struct size; the second call
passes a NULL `RequiredSize` out-pointer, so `wouldReport` — the size the
OS would have reported for the second call — is never requested and no
second-call size check occurs; on success the fixed-size header is
stripped via `copy_within`/`truncate`. -/
def fetchPathDevset (probeResult : Bool) (probeError rawSize : Nat)
    (fetchResult : Bool) (fetchError wouldReport : Nat)
    (bytes : List Nat) : PathOutcome :=
  if probeResult then .fatal
  else if probeError = ERROR_INSUFFICIENT_BUFFER then
    if rawSize < DETAIL_STRUCT_SIZE then .fatal
    else if fetchResult then .ok ((bytes.take rawSize).drop DETAIL_FIXED_PART)
    else .err fetchError
  else .err probeError


/-! Descriptor-based array fetch (claim C1) and the string fetch of
`fetch_property` (claim C6). -/

/-- Outcome of `Property::fetch_array` (src/devdata/properties.rs lines
329-397). -/
inductive FetchArrOutcome where
  | fatal
  | err (code : Nat)
  | ok (chunks : List (List Nat))
  deriving DecidableEq, Repr

/-- `Property::fetch_array::<T>`: computes `len = size / size_of::<T>()`,
asserts `size % size_of::<T>() == 0` (fatal on a non-multiple byte count),
allocates a `size`-byte buffer (`NonZeroUsize::new(size).unwrap()` panics
when `size` is 0), performs the fetch call, surfaces a failed call as a
recoverable error, asserts the reported type and size match the
descriptor, and finally reinterprets the buffer as `len` elements of
`size_of::<T>()` bytes each. -/
def fetchArray (sizeOfT descTy descSize : Nat) (callResult : Bool)
    (callError repTy repSize : Nat) (bytes : List Nat) : FetchArrOutcome :=
  if descSize % sizeOfT ≠ 0 then .fatal
  else if descSize = 0 then .fatal
  else if callResult then
    if repTy ≠ descTy then .fatal
    else if repSize ≠ descSize then .fatal
    else .ok (chunksExact sizeOfT (bytes.take descSize))
  else .err callError

/-- The string arm of `DevInterfaceData::fetch_property`
(src/devdata/properties.rs lines 122-128): the raw bytes from
`fetch_array::<u8>` are handed to `WString::from_utf16le_unchecked`
unchanged — nothing strips the trailing null terminator (the TODO comment
on line 126 records this).  The logical code units of the produced string
are the little-endian byte pairs of the whole buffer. -/
def fetchPropertyStringUnits (bytes : List Nat) : List Nat :=
  toU16LE bytes

/-! Raw buffer allocator model (claim C9), embedding
`alloc_slice_with_align` of src/lib.rs (lines 21-58). -/

/-- `usize::is_power_of_two` as used by `Layout::from_size_align`. -/
def isPow2 (n : Nat) : Bool :=
  n != 0 && (n &&& (n - 1)) == 0

/-- `isize::MAX` on the 64-bit target. -/
def isizeMax : Nat := 2 ^ 63 - 1

/-- Outcome of a raw allocation: the function either aborts the process or
hands back an uninitialized region of some byte length. -/
inductive AllocOutcome where
  | fatal
  | ok (len : Nat)
  deriving DecidableEq, Repr

/-- `alloc_slice_with_align(size, align)`:
`Layout::from_size_align(size, align).unwrap()` panics unless `align` is a
power of two and `size` does not overflow `isize` when rounded up to
`align`; a failed underlying allocation goes to `handle_alloc_error`
(process abort); otherwise the returned boxed slice has exactly `size`
elements.  `osAllocFails` abstracts whether the global allocator returns
null for this request. -/
def alloc_slice_with_align (size align : Nat) (osAllocFails : Bool) :
    AllocOutcome :=
  if isPow2 align = true ∧ size ≤ isizeMax - (align - 1) then
    if osAllocFails then .fatal else .ok size
  else .fatal

end SdTest

namespace SdTest

/-- Claim C8: decoding a property whose tag is DEVPROP_TYPE_UINT32 with
size 4 and raw little-endian bytes [0x2A, 0x00, 0x00, 0x00] produces the
scalar unsigned 32-bit value 42. -/
theorem C8_u32_scalar :
    decodeProp DEVPROP_TYPE_UINT32 [0x2A, 0x00, 0x00, 0x00] =
      some (DevProperty.U32 42) := by decide

/-- Claim C2 counterexample: the boolean-array decode of the raw bytes
[0x01, 0x00, 0x01] does NOT produce [true, false, true], because each byte
is compared against the true sentinel DEVPROP_TRUE = -1 (byte 0xFF), not
against 0x01.  The actual result is [false, false, false]. -/
theorem C2_counterexample :
    decodeProp (DEVPROP_TYPEMOD_ARRAY ||| DEVPROP_TYPE_BOOLEAN) [0x01, 0x00, 0x01]
        ≠ some (DevProperty.BoolArray [true, false, true]) ∧
    decodeProp (DEVPROP_TYPEMOD_ARRAY ||| DEVPROP_TYPE_BOOLEAN) [0x01, 0x00, 0x01]
        = some (DevProperty.BoolArray [false, false, false]) := by
  constructor
  · decide
  · decide

/-- Claim C2 amended: each 1-byte wire boolean is decoded independently by
comparison against the true sentinel DEVPROP_TRUE, which is the byte 0xFF
(the signed value -1); hence [0x01, 0x00, 0x01] decodes to
[false, false, false] and [0xFF, 0x00, 0xFF] decodes to
[true, false, true]. -/
theorem C2_amended :
    decodeProp (DEVPROP_TYPEMOD_ARRAY ||| DEVPROP_TYPE_BOOLEAN) [0x01, 0x00, 0x01]
        = some (DevProperty.BoolArray [false, false, false]) ∧
    decodeProp (DEVPROP_TYPEMOD_ARRAY ||| DEVPROP_TYPE_BOOLEAN) [0xFF, 0x00, 0xFF]
        = some (DevProperty.BoolArray [true, false, true]) := by
  constructor
  · decide
  · decide

/-- Any option produced by mapping a non-Binary constructor is not the
Binary variant. -/
theorem isBinaryVal_map (o : Option α) (f : α → DevProperty)
    (h : ∀ a, isBinaryVal (some (f a)) = false) :
    isBinaryVal (o.map f) = false := by
  cases o with
  | none => rfl
  | some a => exact h a

/-- Claim C7: any type tag whose (modifier, base-type) pair is not in the
known decode table decodes to the Unsupported variant carrying exactly the
raw tag, for every raw buffer, and never panics or errors. -/
theorem C7_unknown_tag (ty : Nat) (raw : List Nat) (h : ¬ knownTag ty) :
    decodeProp ty raw = some (DevProperty.Unsupported ty) := by
  unfold knownTag at h
  obtain ⟨n1, h⟩ := not_or.mp h
  obtain ⟨n2, h⟩ := not_or.mp h
  obtain ⟨n3, h⟩ := not_or.mp h
  obtain ⟨n4, h⟩ := not_or.mp h
  obtain ⟨n5, h⟩ := not_or.mp h
  obtain ⟨n6, h⟩ := not_or.mp h
  obtain ⟨n7, h⟩ := not_or.mp h
  obtain ⟨n8, h⟩ := not_or.mp h
  obtain ⟨n9, h⟩ := not_or.mp h
  obtain ⟨n10, h⟩ := not_or.mp h
  obtain ⟨n11, h⟩ := not_or.mp h
  obtain ⟨n12, h⟩ := not_or.mp h
  obtain ⟨n13, h⟩ := not_or.mp h
  obtain ⟨n14, h⟩ := not_or.mp h
  obtain ⟨n15, h⟩ := not_or.mp h
  obtain ⟨n16, h⟩ := not_or.mp h
  obtain ⟨n17, h⟩ := not_or.mp h
  obtain ⟨n18, h⟩ := not_or.mp h
  obtain ⟨n19, h⟩ := not_or.mp h
  obtain ⟨n20, h⟩ := not_or.mp h
  obtain ⟨n21, h⟩ := not_or.mp h
  obtain ⟨n22, h⟩ := not_or.mp h
  obtain ⟨n23, h⟩ := not_or.mp h
  obtain ⟨n24, h⟩ := not_or.mp h
  obtain ⟨n25, h⟩ := not_or.mp h
  obtain ⟨n26, h⟩ := not_or.mp h
  obtain ⟨n27, h⟩ := not_or.mp h
  unfold decodeProp
  rw [if_neg n1, if_neg n2, if_neg n3, if_neg n4, if_neg n5, if_neg n6,
    if_neg n7, if_neg n8, if_neg n9, if_neg n10, if_neg n11, if_neg n12,
    if_neg n13, if_neg n14, if_neg n15, if_neg n16, if_neg n17, if_neg n18,
    if_neg n19, if_neg n20, if_neg n21, if_neg n22, if_neg n23, if_neg n24,
    if_neg n25, if_neg n26, if_neg n27, if_neg h]

/-- Claim C7 witness: the raw tag 0xFFFF is not in the decode table and
decodes to Unsupported 0xFFFF. -/
theorem C7_unknown_tag_witness :
    ¬ knownTag 0xFFFF ∧
      decodeProp 0xFFFF [1, 2, 3] = some (DevProperty.Unsupported 0xFFFF) :=
  ⟨by decide, C7_unknown_tag 0xFFFF [1, 2, 3] (by decide)⟩

/-- Claim C10: the scalar-binary arm (modifier 0, base type
DEVPROP_TYPE_BINARY = 0x1003) of the decode table is unreachable, because a
masked base type is at most 0xFFF; hence no decode ever produces the Binary
variant, and a binary-tagged property (raw tag 0x1003) decodes through the
byte-array arm as a U8 array of the raw bytes. -/
theorem C10_binary_unreachable :
    (∀ ty raw, isBinaryVal (decodeProp ty raw) = false) ∧
      (∀ raw, decodeProp 0x1003 raw = some (DevProperty.U8Array raw)) := by
  constructor
  · intro ty raw
    unfold decodeProp
    by_cases h1 : tymod ty = 0 ∧ tybase ty = DEVPROP_TYPE_EMPTY
    case pos => rw [if_pos h1]; rfl
    rw [if_neg h1]
    by_cases h2 : tymod ty = 0 ∧ tybase ty = DEVPROP_TYPE_NULL
    case pos => rw [if_pos h2]; rfl
    rw [if_neg h2]
    by_cases h3 : tymod ty = 0 ∧ tybase ty = DEVPROP_TYPE_BOOLEAN
    case pos => rw [if_pos h3]; exact isBinaryVal_map _ _ (fun a => rfl)
    rw [if_neg h3]
    by_cases h4 : tymod ty = 0 ∧ tybase ty = DEVPROP_TYPE_STRING
    case pos => rw [if_pos h4]; exact isBinaryVal_map _ _ (fun a => rfl)
    rw [if_neg h4]
    by_cases h5 : tymod ty = 0 ∧ tybase ty = DEVPROP_TYPE_SBYTE
    case pos => rw [if_pos h5]; exact isBinaryVal_map _ _ (fun a => rfl)
    rw [if_neg h5]
    by_cases h6 : tymod ty = 0 ∧ tybase ty = DEVPROP_TYPE_BYTE
    case pos => rw [if_pos h6]; exact isBinaryVal_map _ _ (fun a => rfl)
    rw [if_neg h6]
    by_cases h7 : tymod ty = 0 ∧ tybase ty = DEVPROP_TYPE_INT16
    case pos => rw [if_pos h7]; exact isBinaryVal_map _ _ (fun a => rfl)
    rw [if_neg h7]
    by_cases h8 : tymod ty = 0 ∧ tybase ty = DEVPROP_TYPE_UINT16
    case pos => rw [if_pos h8]; exact isBinaryVal_map _ _ (fun a => rfl)
    rw [if_neg h8]
    by_cases h9 : tymod ty = 0 ∧ tybase ty = DEVPROP_TYPE_INT32
    case pos => rw [if_pos h9]; exact isBinaryVal_map _ _ (fun a => rfl)
    rw [if_neg h9]
    by_cases h10 : tymod ty = 0 ∧ tybase ty = DEVPROP_TYPE_UINT32
    case pos => rw [if_pos h10]; exact isBinaryVal_map _ _ (fun a => rfl)
    rw [if_neg h10]
    by_cases h11 : tymod ty = 0 ∧ tybase ty = DEVPROP_TYPE_INT64
    case pos => rw [if_pos h11]; exact isBinaryVal_map _ _ (fun a => rfl)
    rw [if_neg h11]
    by_cases h12 : tymod ty = 0 ∧ tybase ty = DEVPROP_TYPE_UINT64
    case pos => rw [if_pos h12]; exact isBinaryVal_map _ _ (fun a => rfl)
    rw [if_neg h12]
    by_cases h13 : tymod ty = 0 ∧ tybase ty = DEVPROP_TYPE_FLOAT
    case pos => rw [if_pos h13]; exact isBinaryVal_map _ _ (fun a => rfl)
    rw [if_neg h13]
    by_cases h14 : tymod ty = 0 ∧ tybase ty = DEVPROP_TYPE_DOUBLE
    case pos => rw [if_pos h14]; exact isBinaryVal_map _ _ (fun a => rfl)
    rw [if_neg h14]
    -- the scalar-binary arm: its guard needs tybase ty = 0x1003, which is
    -- impossible because a value masked with 0xFFF is at most 0xFFF
    have h15 : ¬ (tymod ty = 0 ∧ tybase ty = DEVPROP_TYPE_BINARY) := by
      intro hab
      have hle : ty &&& 0xFFF ≤ 0xFFF := Nat.and_le_right
      have hb : ty &&& 0xFFF = 0x1003 := hab.2
      omega
    rw [if_neg h15]
    by_cases h16 : tymod ty = 0 ∧ tybase ty = DEVPROP_TYPE_GUID
    case pos => rw [if_pos h16]; exact isBinaryVal_map _ _ (fun a => rfl)
    rw [if_neg h16]
    by_cases h17 : tymod ty = DEVPROP_TYPEMOD_ARRAY ∧ tybase ty = DEVPROP_TYPE_BOOLEAN
    case pos => rw [if_pos h17]; rfl
    rw [if_neg h17]
    by_cases h18 : tymod ty = DEVPROP_TYPEMOD_ARRAY ∧ tybase ty = DEVPROP_TYPE_SBYTE
    case pos => rw [if_pos h18]; rfl
    rw [if_neg h18]
    by_cases h19 : tymod ty = DEVPROP_TYPEMOD_ARRAY ∧ tybase ty = DEVPROP_TYPE_BYTE
    case pos => rw [if_pos h19]; rfl
    rw [if_neg h19]
    by_cases h20 : tymod ty = DEVPROP_TYPEMOD_ARRAY ∧ tybase ty = DEVPROP_TYPE_INT16
    case pos => rw [if_pos h20]; exact isBinaryVal_map _ _ (fun a => rfl)
    rw [if_neg h20]
    by_cases h21 : tymod ty = DEVPROP_TYPEMOD_ARRAY ∧ tybase ty = DEVPROP_TYPE_UINT16
    case pos => rw [if_pos h21]; exact isBinaryVal_map _ _ (fun a => rfl)
    rw [if_neg h21]
    by_cases h22 : tymod ty = DEVPROP_TYPEMOD_ARRAY ∧ tybase ty = DEVPROP_TYPE_INT32
    case pos => rw [if_pos h22]; exact isBinaryVal_map _ _ (fun a => rfl)
    rw [if_neg h22]
    by_cases h23 : tymod ty = DEVPROP_TYPEMOD_ARRAY ∧ tybase ty = DEVPROP_TYPE_UINT32
    case pos => rw [if_pos h23]; exact isBinaryVal_map _ _ (fun a => rfl)
    rw [if_neg h23]
    by_cases h24 : tymod ty = DEVPROP_TYPEMOD_ARRAY ∧ tybase ty = DEVPROP_TYPE_INT64
    case pos => rw [if_pos h24]; exact isBinaryVal_map _ _ (fun a => rfl)
    rw [if_neg h24]
    by_cases h25 : tymod ty = DEVPROP_TYPEMOD_ARRAY ∧ tybase ty = DEVPROP_TYPE_UINT64
    case pos => rw [if_pos h25]; exact isBinaryVal_map _ _ (fun a => rfl)
    rw [if_neg h25]
    by_cases h26 : tymod ty = DEVPROP_TYPEMOD_ARRAY ∧ tybase ty = DEVPROP_TYPE_FLOAT
    case pos => rw [if_pos h26]; exact isBinaryVal_map _ _ (fun a => rfl)
    rw [if_neg h26]
    by_cases h27 : tymod ty = DEVPROP_TYPEMOD_ARRAY ∧ tybase ty = DEVPROP_TYPE_DOUBLE
    case pos => rw [if_pos h27]; exact isBinaryVal_map _ _ (fun a => rfl)
    rw [if_neg h27]
    by_cases h28 : tymod ty = DEVPROP_TYPEMOD_ARRAY ∧ tybase ty = DEVPROP_TYPE_GUID
    case pos => rw [if_pos h28]; exact isBinaryVal_map _ _ (fun a => rfl)
    rw [if_neg h28]
    rfl
  · intro raw
    rfl


/-- Unfolding lemma for a run of `enumerate`: with the OS succeeding at all
indices below `k` and failing at `k` with code `c`, polling the sequence
(with enough fuel) returns the successful records for indices `j ≤ i < k`
followed by the termination behaviour selected by `c`: clean end for
ERROR_NO_MORE_ITEMS, otherwise one error element and then the CONTINUED
enumeration from index `k + 1`. -/
theorem enumItems_run (os : Nat → EnumReply) (d : Nat → Nat) (k c : Nat)
    (hok : ∀ i, i < k → os i = EnumReply.ok (d i))
    (hk : os k = EnumReply.fail c) :
    ∀ (fuel j : Nat), j ≤ k → k + 1 ≤ fuel + j →
      enumItems os fuel j =
        ((List.range' j (k - j)).map (fun i => EnumItem.ok (d i))) ++
          (if c = ERROR_NO_MORE_ITEMS then []
           else EnumItem.err c :: enumItems os (fuel - (k + 1 - j)) (k + 1)) := by
  intro fuel
  induction fuel with
  | zero => intro j hj hf; omega
  | succ n ih =>
    intro j hj hf
    rcases Nat.lt_or_ge j k with hlt | hge
    · have hoj : os j = EnumReply.ok (d j) := hok j hlt
      have hkj : k - j = (k - (j + 1)) + 1 := by omega
      simp only [enumItems, hoj]
      rw [ih (j + 1) (by omega) (by omega), hkj, List.range'_succ]
      simp only [List.map_cons, List.cons_append]
      have harith : n - (k + 1 - (j + 1)) = n + 1 - (k + 1 - j) := by omega
      rw [harith]
    · have hjk : j = k := by omega
      subst hjk
      simp only [enumItems, hk, Nat.sub_self, List.range'_zero, List.map_nil,
        List.nil_append]
      have harith : n + 1 - (j + 1 - j) = n := by omega
      rw [harith]

/-- Claim C3 counterexample: with an OS layer that fails at index 1 with
platform code 5 (not the no-more-items code) but still has an enumerable
item at index 2, the sequence yields a further successful record AFTER the
error element, so it does not terminate at the error element as the claim
states. -/
theorem C3_counterexample :
    enumItems osSample 4 0 = [EnumItem.ok 10, EnumItem.err 5, EnumItem.ok 11] ∧
      enumItems osSample 4 0 ≠ [EnumItem.ok 10, EnumItem.err 5] := by
  constructor
  · rfl
  · decide

/-- Claim C3 amended: if the OS query succeeds for indices 0..k-1 and fails
at index k with code `c`, the sequence yields exactly the k successful
records and then: for `c` = ERROR_NO_MORE_ITEMS it ends cleanly with no
error element; for any other code it yields exactly one error element
carrying that code and then CONTINUES enumerating from index k + 1 (it does
not terminate at the error element). -/
theorem C3_amended (os : Nat → EnumReply) (d : Nat → Nat) (k c fuel : Nat)
    (hok : ∀ i, i < k → os i = EnumReply.ok (d i))
    (hk : os k = EnumReply.fail c) (hfuel : k + 1 ≤ fuel) :
    enumItems os fuel 0 =
      ((List.range k).map (fun i => EnumItem.ok (d i))) ++
        (if c = ERROR_NO_MORE_ITEMS then []
         else EnumItem.err c :: enumItems os (fuel - (k + 1)) (k + 1)) := by
  have h := enumItems_run os d k c hok hk fuel 0 (by omega) (by omega)
  simpa [List.range_eq_range'] using h

/-- Claim C3 amended, witness at the sample oracle: one success, then the
failure with code 5 at index 1, then continued enumeration from index 2. -/
theorem C3_amended_witness :
    enumItems osSample 4 0 =
      ((List.range 1).map (fun i => EnumItem.ok (osSampleData i))) ++
        (if (5 : Nat) = ERROR_NO_MORE_ITEMS then []
         else EnumItem.err 5 :: enumItems osSample 2 2) :=
  C3_amended osSample osSampleData 1 5 4 (by decide) (by decide) (by decide)


/-- Claim C4 counterexample: a zero-size probe that fails with a platform
code other than ERROR_INSUFFICIENT_BUFFER (here code 5) is surfaced as a
recoverable error return, not treated as fatal as the claim states. -/
theorem C4_counterexample :
    probePhase false 5 0 = ProbeStep.err 5 ∧
      ProbeStep.err 5 ≠ ProbeStep.fatal := by
  constructor
  · decide
  · decide

/-- Claim C4 amended: a zero-size probe that unexpectedly SUCCEEDS is fatal
(the assertion fires); a probe failing with a code other than
ERROR_INSUFFICIENT_BUFFER returns that code as a recoverable platform
error; execution proceeds to the allocation and fetch phase exactly when
the probe failed with ERROR_INSUFFICIENT_BUFFER — so it never continues
normally past any other probe outcome. -/
theorem C4_amended (r : Bool) (e s : Nat) :
    (probePhase r e s = ProbeStep.fatal ↔ r = true) ∧
      (probePhase r e s = ProbeStep.proceed s ↔
        (r = false ∧ e = ERROR_INSUFFICIENT_BUFFER)) ∧
      (probePhase r e s = ProbeStep.err e ↔
        (r = false ∧ e ≠ ERROR_INSUFFICIENT_BUFFER)) := by
  cases r <;> by_cases he : e = ERROR_INSUFFICIENT_BUFFER <;>
    simp [probePhase, he]

/-- Claim C5 counterexample: in the devset.rs variant of path retrieval the
second (fetch) call passes a NULL RequiredSize pointer, so a second-call
size mismatch (the OS would report 999 for a 12-byte request) raises no
fatal condition: the call returns a normal result. -/
theorem C5_counterexample :
    fetchPathDevset false 122 12 true 0 999 [1, 2, 3, 4, 5, 6, 7, 8, 9, 10, 11, 12]
        = PathOutcome.ok [7, 8, 9, 10, 11, 12] ∧
      (999 : Nat) ≠ 12 ∧
      fetchPathDevset false 122 12 true 0 999 [1, 2, 3, 4, 5, 6, 7, 8, 9, 10, 11, 12]
        ≠ PathOutcome.fatal := by
  refine ⟨by decide, by decide, by decide⟩

/-- Claim C5 amended: the buffer allocated for the second call always has
exactly the probe-reported size (both models fetch into a buffer of that
byte length).  The devdata.rs path retrieval asserts the size reported by
the successful second call equal to the requested size, fatal on any
mismatch; the devset.rs path retrieval passes a NULL out-size on the
second call, so its outcome is entirely independent of the size the OS
would have reported, and a successful second call always returns normally:
no second-call size check occurs there. -/
theorem C5_amended :
    (∀ (size fetchError newSize : Nat) (bytes : List Nat), 0 < size →
        fetchPathDevdata false ERROR_INSUFFICIENT_BUFFER size false true
            fetchError newSize bytes
          = if newSize = size
            then PathOutcome.ok ((bytes.take size).drop DETAIL_PATH_OFFSET)
            else PathOutcome.fatal) ∧
      (∀ (pr : Bool) (pe rs : Nat) (fr : Bool) (fe w1 w2 : Nat)
          (bytes : List Nat),
        fetchPathDevset pr pe rs fr fe w1 bytes
          = fetchPathDevset pr pe rs fr fe w2 bytes) ∧
      (∀ (rs fe w : Nat) (bytes : List Nat), DETAIL_STRUCT_SIZE ≤ rs →
        fetchPathDevset false ERROR_INSUFFICIENT_BUFFER rs true fe w bytes
          = PathOutcome.ok ((bytes.take rs).drop DETAIL_FIXED_PART)) := by
  refine ⟨?_, ?_, ?_⟩
  · intro size fe ns bytes hs
    simp [fetchPathDevdata, hs.ne']
  · intro pr pe rs fr fe w1 w2 bytes
    rfl
  · intro rs fe w bytes h
    simp [fetchPathDevset, Nat.not_lt.mpr h]

/-- Claim C5 amended, witness: the devdata.rs variant at a concrete input
with a mismatched second-call size. -/
theorem C5_amended_witness :
    fetchPathDevdata false ERROR_INSUFFICIENT_BUFFER 12 false true 0 999
        [1, 2, 3, 4, 5, 6, 7, 8, 9, 10, 11, 12]
      = if (999 : Nat) = 12
        then PathOutcome.ok
          (([1, 2, 3, 4, 5, 6, 7, 8, 9, 10, 11, 12].take 12).drop DETAIL_PATH_OFFSET)
        else PathOutcome.fatal :=
  C5_amended.1 12 0 999 [1, 2, 3, 4, 5, 6, 7, 8, 9, 10, 11, 12] (by decide)


/-- Claim C1, code bug, evaluated at the failing input: decoding a
UINT32-array property from the exact 4-byte buffer [0x2A,0,0,0] panics
(`arrconv` chunks by `size_of::<u32>() / 8 = 0` and `chunks_exact(0)`
aborts) instead of producing the 1-element array; a UINT64-array decode of
an exact 8-byte buffer likewise panics (1-byte chunks fed to an 8-byte
read).  The descriptor-based `Property::fetch_array` path does satisfy the
claim: an exact multiple yields the chunked elements and a non-multiple
byte count is a fatal decode fault. -/
theorem C1_code_bug :
    decodeProp (DEVPROP_TYPEMOD_ARRAY ||| DEVPROP_TYPE_UINT32)
        [0x2A, 0x00, 0x00, 0x00] = none ∧
      decodeProp (DEVPROP_TYPEMOD_ARRAY ||| DEVPROP_TYPE_UINT64)
        [1, 0, 0, 0, 0, 0, 0, 0] = none ∧
      fetchArray 4 0x1007 4 true 0 0x1007 4 [0x2A, 0x00, 0x00, 0x00]
        = FetchArrOutcome.ok [[0x2A, 0x00, 0x00, 0x00]] ∧
      fetchArray 4 0x1007 6 true 0 0x1007 6 [0, 0, 0, 0, 0, 0]
        = FetchArrOutcome.fatal := by
  refine ⟨by decide, by decide, by decide, by decide⟩

/-- Claim C6, code bug, evaluated at the failing input: for the wire
string "a" (UTF-16LE bytes [0x61,0,0,0], null-terminated), the decode in
`fetch_property_value` drops the trailing terminator element and yields
the unit sequence [0x61], but the string arm of `fetch_property`
(devdata/properties.rs) keeps the whole buffer, producing [0x61, 0] —
a logical string still containing the wire terminator. -/
theorem C6_code_bug :
    decodeProp DEVPROP_TYPE_STRING [0x61, 0x00, 0x00, 0x00]
        = some (DevProperty.String [0x61]) ∧
      fetchPropertyStringUnits [0x61, 0x00, 0x00, 0x00] = [0x61, 0] ∧
      0 ∈ fetchPropertyStringUnits [0x61, 0x00, 0x00, 0x00] := by
  refine ⟨by decide, by decide, by decide⟩

/-- Claim C9: with a non-zero byte count, a power-of-two alignment and a
satisfiable request, the allocator returns a region of exactly the
requested length; a non-power-of-two alignment or a failed underlying
allocation aborts the process instead of returning a recoverable error. -/
theorem C9_alloc (size align : Nat) (osAllocFails : Bool)
    (hsize : 0 < size) :
    (isPow2 align = true → size ≤ isizeMax - (align - 1) →
        osAllocFails = false →
        alloc_slice_with_align size align osAllocFails = AllocOutcome.ok size) ∧
      (isPow2 align = false →
        alloc_slice_with_align size align osAllocFails = AllocOutcome.fatal) ∧
      (osAllocFails = true →
        alloc_slice_with_align size align osAllocFails = AllocOutcome.fatal) := by
  refine ⟨?_, ?_, ?_⟩
  · intro hp hf hn
    subst hn
    simp [alloc_slice_with_align, hp, hf]
  · intro hp
    simp [alloc_slice_with_align, hp]
  · intro hn
    subst hn
    simp [alloc_slice_with_align]
  
/-- Claim C9 witness: a 16-byte request at alignment 8 with a successful
underlying allocation returns a 16-byte region. -/
theorem C9_alloc_witness :
    alloc_slice_with_align 16 8 false = AllocOutcome.ok 16 :=
  (C9_alloc 16 8 false (by decide)).1 (by decide) (by decide) rfl

end SdTest
